import Mathlib

/-!
# Verification of the wasm-sudoku grid-state synchronization layer

Shallow embedding of `src/www/src/index.ts`: the grid controller that keeps
the 81 DOM cell widgets, the engine's shared 81-cell buffer (`cells`), and
the clue set (`clueIndices`) consistent.  The external engine
(`Puzzle.generate/verify/solve`) is opaque: its calls are modelled by
passing the buffer contents it produces (for `generate`/`solve`) or the
boolean it returns (for `verify`) as parameters.

Widget text is modelled as a `List Char`; JavaScript string primitives
(`substr`, `parseInt`) are embedded with their ECMAScript semantics at the
argument shapes that occur in this program.
-/

namespace WasmSudoku

/-- One `<input>` cell widget: `value` is its displayed text, `readOnly`
its read-only flag, `clue` whether its class list carries the "clue"
marker. -/
structure Widget where
  value : List Char
  readOnly : Bool
  clue : Bool
deriving DecidableEq, Repr

/-- The `#notification` element: its first child's text content and its
class list (`className`/`classList`). -/
structure Notice where
  text : String
  classes : List String
deriving DecidableEq, Repr

/-- The mutable state of the page: the engine's shared 81-byte buffer
(`cells`), the clue positions (`clueIndices`), the 81 widgets (both
`dataset.index` and DOM order equal the position, by construction in
`initializeGrid`), the notification element, and the delays of the
`setTimeout` calls issued so far. -/
structure AppState where
  cells : Fin 81 → ℕ
  clueIndices : Finset (Fin 81)
  widgets : Fin 81 → Widget
  notice : Notice
  timers : List ℕ

/-- An `input` event as the handler observes it: the widget's raw text
*after* the DOM applied the edit (`input.value`), the cursor position after
the edit (`input.selectionStart`), and the widget's board position
(`input.dataset.index`). -/
structure InputEvent where
  raw : List Char
  selStart : ℕ
  index : Fin 81

/-- ECMAScript `String.prototype.substr(start, len)` on a character list:
a negative `start` counts back from the end, clamped at 0. -/
def substrJS (l : List Char) (start : ℤ) (len : ℕ) : List Char :=
  let s : ℕ := if start < 0 then ((l.length : ℤ) + start).toNat else start.toNat
  (l.drop s).take len

/-- The value of a decimal run of digits. -/
def parseDigits (l : List Char) : Option ℕ :=
  match l.takeWhile Char.isDigit with
  | [] => none
  | ds => some (ds.foldl (fun a c => 10 * a + (c.toNat - 48)) 0)

/-- ECMAScript `parseInt` at radix 10 on the shapes this program produces
(strings of length at most 1, hence no whitespace trimming): an optional
sign followed by a leading run of decimal digits; `none` models `NaN`. -/
def parseIntJS (l : List Char) : Option ℤ :=
  match l with
  | '-' :: rest => (parseDigits rest).map (fun n => -(n : ℤ))
  | '+' :: rest => (parseDigits rest).map (fun n => (n : ℤ))
  | _ => (parseDigits l).map (fun n => (n : ℤ))

/-- `input.value.substr(input.selectionStart - 1, 1)`: the character the
handler treats as the newly typed one. -/
def extractChar (ev : InputEvent) : List Char :=
  substrJS ev.raw ((ev.selStart : ℤ) - 1) 1

/-- `parseInt(...)` of the extracted character (`newValue` in the source). -/
def parsedNew (ev : InputEvent) : Option ℤ :=
  parseIntJS (extractChar ev)

/-- Whether the guard `!Number.isInteger(newValue) || newValue < 1 ||
newValue > 9` lets the edit through (`Number.isInteger(NaN)` is false, and
`parseIntJS = none` models `NaN`). -/
def isAccepted (ev : InputEvent) : Bool :=
  match parsedNew ev with
  | none => false
  | some v => decide (1 ≤ v ∧ v ≤ 9)

/-- The rejection branch of `updateCell`: restore
`input.value.substr(input.value.length - input.selectionStart, 1)`, or the
empty string when the raw text has length 1; the buffer is untouched. -/
def rejectSt (st : AppState) (ev : InputEvent) : AppState :=
  let oldValue : List Char :=
    if ev.raw.length = 1 then []
    else substrJS ev.raw ((ev.raw.length : ℤ) - (ev.selStart : ℤ)) 1
  { st with
    widgets := Function.update st.widgets ev.index
      { st.widgets ev.index with value := oldValue } }

/-- The acceptance branch of `updateCell`: `input.value = String(newValue)`
then `cells[Number(input.dataset.index)] = Number(input.value)`.  In this
branch `1 ≤ v ≤ 9`, so `Number(String(v)) = v` and the `Uint8Array` store
does not truncate. -/
def acceptSt (st : AppState) (ev : InputEvent) (v : ℤ) : AppState :=
  { st with
    widgets := Function.update st.widgets ev.index
      { st.widgets ev.index with value := (toString v).data },
    cells := Function.update st.cells ev.index v.toNat }

/-- The `oninput` handler `updateCell`. -/
def updateCell (st : AppState) (ev : InputEvent) : AppState :=
  match parsedNew ev with
  | none => rejectSt st ev
  | some v => if 1 ≤ v ∧ v ≤ 9 then acceptSt st ev v else rejectSt st ev

/-- One iteration of the `refreshGrid` loop at position `i`: text from the
buffer (`cells[index] ? String(cells[index]) : ""`, JavaScript truthiness),
clue marker and read-only flag from clue-set membership.  The loop index
and `dataset.index` coincide because `initializeGrid` creates the widgets
in DOM order with `dataset.index = i`. -/
def renderWidget (board : Fin 81 → ℕ) (clues : Finset (Fin 81)) (i : Fin 81) : Widget :=
  { value := if board i = 0 then [] else (Nat.repr (board i)).data
    readOnly := decide (i ∈ clues)
    clue := decide (i ∈ clues) }

/-- `refreshGrid`: resynchronize every widget from the buffer and clue set. -/
def refreshGrid (st : AppState) : AppState :=
  { st with widgets := fun i => renderWidget st.cells st.clueIndices i }

/-- `initializeClues`: the positions whose buffer value is non-zero. -/
def initializeClues (board : Fin 81 → ℕ) : Finset (Fin 81) :=
  Finset.univ.filter (fun i => board i ≠ 0)

/-- `generatePuzzle`: `puzzle.generate()` (the engine rewrites the buffer
to `newBoard`), then `initializeClues()`, then `refreshGrid()`. -/
def generatePuzzle (newBoard : Fin 81 → ℕ) (st : AppState) : AppState :=
  let st1 := { st with cells := newBoard }
  let st2 := { st1 with clueIndices := initializeClues st1.cells }
  refreshGrid st2

/-- `solvePuzzle`: `puzzle.solve()` (the engine rewrites the buffer to
`solvedBoard`), then `refreshGrid()`; the clue set is not recomputed. -/
def solvePuzzle (solvedBoard : Fin 81 → ℕ) (st : AppState) : AppState :=
  refreshGrid { st with cells := solvedBoard }

/-- `cells.every((x) => x !== 0)`. -/
def boardFull (board : Fin 81 → ℕ) : Bool :=
  (List.finRange 81).all (fun i => board i != 0)

/-- `verifyPuzzle`: `puzzle.verify()` returns `result`; pick the message
and style, write them to the notification element, and schedule the 2500ms
dismissal. -/
def verifyPuzzle (result : Bool) (st : AppState) : AppState :=
  let message : String :=
    if result then
      if boardFull st.cells then "Congratulations! You solved it."
      else "Looks good so far!"
    else "Oops! There is a mistake somewhere."
  let kind : String := if result then "success" else "error"
  { st with
    notice := { text := message, classes := ["visible", kind] }
    timers := st.timers ++ [2500] }

/-- A widget as `initializeGrid` creates it, before the initial refresh. -/
def freshWidget : Widget :=
  { value := [], readOnly := false, clue := false }

/-- `initializeGrid`: create the 81 widgets, then `refreshGrid()`. -/
def initializeGrid (st : AppState) : AppState :=
  refreshGrid { st with widgets := fun _ => freshWidget }

/-! ## Helper lemmas -/

/-- On a rejected event `updateCell` runs its rejection branch. -/
theorem updateCell_of_reject (st : AppState) (ev : InputEvent)
    (h : isAccepted ev = false) : updateCell st ev = rejectSt st ev := by
  unfold updateCell
  unfold isAccepted at h
  cases hp : parsedNew ev with
  | none => rfl
  | some v =>
    rw [hp] at h
    simp only [decide_eq_false_iff_not] at h
    simp [h]

/-- On an accepted event `updateCell` runs its acceptance branch. -/
theorem updateCell_of_accept (st : AppState) (ev : InputEvent) (v : ℤ)
    (hp : parsedNew ev = some v) (h1 : 1 ≤ v) (h9 : v ≤ 9) :
    updateCell st ev = acceptSt st ev v := by
  unfold updateCell
  rw [hp]
  simp [h1, h9]

/-- `String(v)` for `1 ≤ v ≤ 9` is the one matching digit character. -/
theorem toString_int_digit (v : ℤ) (h1 : 1 ≤ v) (h9 : v ≤ 9) :
    (toString v).data = [Char.ofNat (48 + v.toNat)] := by
  interval_cases v <;> decide

/-- `String(n)` for `1 ≤ n ≤ 9` is the one matching digit character. -/
theorem natRepr_digit (n : ℕ) (h0 : n ≠ 0) (h9 : n ≤ 9) :
    (Nat.repr n).data = [Char.ofNat (48 + n)] := by
  interval_cases n <;> first | exact absurd rfl h0 | decide

/-- `substr(_, 1)` extracts at most one character. -/
theorem substrJS_length_le (l : List Char) (s : ℤ) :
    (substrJS l s 1).length ≤ 1 := by
  unfold substrJS
  simp only [List.length_take]
  omega

/-- `boardFull` decides "every buffer cell is non-zero". -/
theorem boardFull_iff (board : Fin 81 → ℕ) :
    boardFull board = true ↔ ∀ i, board i ≠ 0 := by
  unfold boardFull
  rw [List.all_eq_true]
  constructor
  · intro h i
    simpa using h i (List.mem_finRange i)
  · intro h i _
    simpa using h i

/-- Every event is either rejected (runs the rejection branch) or accepted
at some parsed value in [1,9] (runs the acceptance branch). -/
theorem updateCell_cases (st : AppState) (ev : InputEvent) :
    (isAccepted ev = false ∧ updateCell st ev = rejectSt st ev) ∨
    (∃ v : ℤ, parsedNew ev = some v ∧ 1 ≤ v ∧ v ≤ 9 ∧
      updateCell st ev = acceptSt st ev v) := by
  cases hp : parsedNew ev with
  | none =>
    left
    constructor
    · unfold isAccepted
      rw [hp]
    · unfold updateCell
      rw [hp]
  | some v =>
    by_cases h : 1 ≤ v ∧ v ≤ 9
    · right
      refine ⟨v, rfl, h.1, h.2, ?_⟩
      unfold updateCell
      rw [hp]
      simp [h]
    · left
      constructor
      · unfold isAccepted
        rw [hp]
        simp [h]
      · unfold updateCell
        rw [hp]
        simp [h]

/-- The rejection branch leaves the buffer untouched. -/
theorem rejectSt_cells (st : AppState) (ev : InputEvent) :
    (rejectSt st ev).cells = st.cells := rfl

/-- The widget text the rejection branch installs. -/
theorem rejectSt_widget_value (st : AppState) (ev : InputEvent) :
    ((rejectSt st ev).widgets ev.index).value =
      (if ev.raw.length = 1 then []
       else substrJS ev.raw ((ev.raw.length : ℤ) - (ev.selStart : ℤ)) 1) := by
  unfold rejectSt
  simp [Function.update_same]

/-- The buffer write the acceptance branch performs. -/
theorem acceptSt_cells (st : AppState) (ev : InputEvent) (v : ℤ) :
    (acceptSt st ev v).cells = Function.update st.cells ev.index v.toNat := rfl

/-- The widget text the acceptance branch installs. -/
theorem acceptSt_widget_value (st : AppState) (ev : InputEvent) (v : ℤ) :
    ((acceptSt st ev v).widgets ev.index).value = (toString v).data := by
  unfold acceptSt
  simp [Function.update_same]

/-! ## Concrete fixtures -/

/-- The page state right after startup against an all-zero engine buffer:
empty clue set, all widgets blank. -/
def st0 : AppState :=
  { cells := fun _ => 0
    clueIndices := ∅
    widgets := fun _ => freshWidget
    notice := { text := "", classes := [] }
    timers := [] }

/-- `st0` with a 7 in cell 1, widget 1 displaying "7". -/
def st7 : AppState :=
  { st0 with
    cells := Function.update st0.cells 1 7
    widgets := Function.update st0.widgets 1
      { value := ['7'], readOnly := false, clue := false } }

/-- Typing "7" into empty widget 1: raw text "7", cursor after it. -/
def evAccept : InputEvent := { raw := ['7'], selStart := 1, index := 1 }

/-- Typing "x" into empty widget 1: raw text "x", cursor after it. -/
def evReject : InputEvent := { raw := ['x'], selStart := 1, index := 1 }

/-- Pasting "xy" into empty widget 0: raw text "xy", cursor at 2. -/
def evPasteXY : InputEvent := { raw := ['x', 'y'], selStart := 2, index := 0 }

/-- Pasting "xy" before the "7" in widget 1: raw text "xy7", cursor at 2. -/
def evPasteXY7 : InputEvent := { raw := ['x', 'y', '7'], selStart := 2, index := 1 }

/-! ## Claims -/

/-- C1: when the extracted character parses to an integer in [1,9] the edit
is accepted: the buffer cell at the widget's index becomes that digit and
the widget displays exactly that one digit character; when the edit is
rejected, every buffer cell is unchanged. -/
theorem updateCell_write_through (st : AppState) (ev : InputEvent) :
    (∀ v : ℤ, parsedNew ev = some v → 1 ≤ v → v ≤ 9 →
      (updateCell st ev).cells ev.index = v.toNat ∧
      ((updateCell st ev).widgets ev.index).value = [Char.ofNat (48 + v.toNat)]) ∧
    (isAccepted ev = false → (updateCell st ev).cells = st.cells) := by
  constructor
  · intro v hp h1 h9
    rw [updateCell_of_accept st ev v hp h1 h9]
    constructor
    · rw [acceptSt_cells]
      exact Function.update_same ..
    · rw [acceptSt_widget_value]
      exact toString_int_digit v h1 h9
  · intro h
    rw [updateCell_of_reject st ev h]
    exact rejectSt_cells st ev

/-- C1 witness: typing "7" into widget 1 writes 7 into cell 1; typing "x"
into widget 1 leaves the whole buffer unchanged. -/
theorem updateCell_write_through_witness :
    (updateCell st7 evAccept).cells 1 = 7 ∧
    (updateCell st7 evReject).cells = st7.cells := by
  constructor
  · exact ((updateCell_write_through st7 evAccept).1 7 (by decide) (by decide)
      (by decide)).1
  · exact (updateCell_write_through st7 evReject).2 (by decide)

/-- C2 counterexample: pasting "xy" into the empty widget 0 (raw text "xy",
cursor at 2) is rejected, yet afterwards the widget displays "x" — a text
that is neither empty nor a single character among "1".."9". -/
theorem updateCell_single_char_cex :
    ((updateCell st0 evPasteXY).widgets 0).value = ['x'] ∧
    (['x'] : List Char) ≠ [] ∧ ¬('1' ≤ 'x' ∧ 'x' ≤ '9') := by
  refine ⟨by decide, by decide, by decide⟩

/-- C2 (amended): after any input event the target widget's displayed text
has at most one character, and it is exactly the parsed digit whenever the
event is accepted; a rejected event, however, may leave a single arbitrary
character recovered from the raw text rather than a digit. -/
theorem updateCell_at_most_one_char (st : AppState) (ev : InputEvent) :
    (((updateCell st ev).widgets ev.index).value.length ≤ 1) ∧
    (∀ v : ℤ, parsedNew ev = some v → 1 ≤ v → v ≤ 9 →
      ((updateCell st ev).widgets ev.index).value = [Char.ofNat (48 + v.toNat)]) := by
  constructor
  · rcases updateCell_cases st ev with ⟨-, hr⟩ | ⟨v, hp, h1, h9, ha⟩
    · rw [hr, rejectSt_widget_value]
      split
      · simp
      · exact substrJS_length_le ..
    · rw [ha, acceptSt_widget_value, toString_int_digit v h1 h9]
      exact Nat.le_refl 1
  · intro v hp h1 h9
    rw [updateCell_of_accept st ev v hp h1 h9, acceptSt_widget_value]
    exact toString_int_digit v h1 h9

/-- C2 amended witness: the rejected paste leaves at most one character;
the accepted keystroke leaves exactly the digit "7". -/
theorem updateCell_at_most_one_char_witness :
    ((updateCell st0 evPasteXY).widgets 0).value.length ≤ 1 ∧
    ((updateCell st7 evAccept).widgets 1).value = [Char.ofNat 55] := by
  constructor
  · exact (updateCell_at_most_one_char st0 evPasteXY).1
  · exact (updateCell_at_most_one_char st7 evAccept).2 7 (by decide) (by decide)
      (by decide)

/-- C3 counterexample: widget 1 shows "7"; pasting "xy" before the "7"
(raw text "xy7", cursor at 2) is rejected, the raw text has length 3 ≠ 1,
yet the handler sets the display to "y" — not the prior "7". -/
theorem updateCell_restore_cex :
    isAccepted evPasteXY7 = false ∧
    (st7.widgets 1).value = ['7'] ∧
    evPasteXY7.raw.length ≠ 1 ∧
    ((updateCell st7 evPasteXY7).widgets 1).value = ['y'] ∧
    ((updateCell st7 evPasteXY7).widgets 1).value ≠ (st7.widgets 1).value := by
  refine ⟨by decide, by decide, by decide, by decide, by decide⟩

/-- C3 (amended): when the bad edit is a single-character insertion into
the widget's previous text of length at most one — i.e. typing one
character — a rejected event restores the previous text: the prior single
character, or empty when the raw text has length 1 (the prior text was
empty).  In particular typing "x" into a widget showing "7" leaves "7". -/
theorem updateCell_restore_on_insert (st : AppState) (d : List Char)
    (c : Char) (p : ℕ) (k : Fin 81) (hd : d.length ≤ 1) (hp : p ≤ d.length)
    (hrej : isAccepted ⟨d.take p ++ c :: d.drop p, p + 1, k⟩ = false) :
    ((updateCell st ⟨d.take p ++ c :: d.drop p, p + 1, k⟩).widgets k).value = d := by
  rw [updateCell_of_reject _ _ hrej]
  have hv := rejectSt_widget_value st ⟨d.take p ++ c :: d.drop p, p + 1, k⟩
  rw [hv]
  cases d with
  | nil =>
    have hp0 : p = 0 := Nat.le_zero.mp hp
    subst hp0
    simp
  | cons a t =>
    cases t with
    | cons b u => simp at hd
    | nil =>
      have hp1 : p ≤ 1 := hp
      interval_cases p
      · norm_num [substrJS]
      · norm_num [substrJS]

/-- C3 amended witness: typing "x" after the "7" in widget 1 (raw "7x",
cursor at 2) is rejected and widget 1 still displays "7". -/
theorem updateCell_restore_on_insert_witness :
    ((updateCell st7 ⟨['7', 'x'], 2, 1⟩).widgets 1).value = ['7'] :=
  updateCell_restore_on_insert st7 ['7'] 'x' 1 1 (by decide) (by decide) (by decide)

/-- C4: immediately after a refresh, every widget's text is "" when its
buffer cell is 0 and the decimal rendering of the cell otherwise (the
single matching digit character whenever the cell value is in [1,9]), and
its read-only flag and clue marker hold exactly when the position is in
the clue set. -/
theorem refreshGrid_sync (st : AppState) (i : Fin 81) :
    (((refreshGrid st).widgets i).value =
      if st.cells i = 0 then [] else (Nat.repr (st.cells i)).data) ∧
    (((refreshGrid st).widgets i).readOnly = true ↔ i ∈ st.clueIndices) ∧
    (((refreshGrid st).widgets i).clue = true ↔ i ∈ st.clueIndices) ∧
    (st.cells i ≠ 0 → st.cells i ≤ 9 →
      ((refreshGrid st).widgets i).value = [Char.ofNat (48 + st.cells i)]) := by
  refine ⟨rfl, ?_, ?_, ?_⟩
  · simp [refreshGrid, renderWidget]
  · simp [refreshGrid, renderWidget]
  · intro h0 h9
    show (renderWidget st.cells st.clueIndices i).value = _
    unfold renderWidget
    simp only [h0, if_neg h0]
    exact natRepr_digit (st.cells i) h0 h9

/-- C4 witness: after refreshing `st7`, widget 1 shows the digit of cell 1. -/
theorem refreshGrid_sync_witness :
    ((refreshGrid st7).widgets 1).value = [Char.ofNat (48 + st7.cells 1)] :=
  (refreshGrid_sync st7 1).2.2.2 (by decide) (by decide)

/-- C5: Generate installs the engine's new buffer, then replaces the clue
set with exactly the non-zero positions of that new buffer, then refreshes:
afterwards every widget is rendered from the new buffer and the newly
computed clue set. -/
theorem generatePuzzle_order (st : AppState) (newBoard : Fin 81 → ℕ) :
    ((generatePuzzle newBoard st).cells = newBoard) ∧
    (∀ i, i ∈ (generatePuzzle newBoard st).clueIndices ↔ newBoard i ≠ 0) ∧
    ((generatePuzzle newBoard st).widgets =
      fun i => renderWidget newBoard (initializeClues newBoard) i) := by
  refine ⟨rfl, ?_, rfl⟩
  intro i
  simp [generatePuzzle, refreshGrid, initializeClues]

/-- C6: Solve leaves the clue set exactly as it was, and positions outside
the clue set remain editable (not read-only, no clue marker) after the
refresh that follows. -/
theorem solvePuzzle_clue_frame (st : AppState) (solvedBoard : Fin 81 → ℕ) :
    ((solvePuzzle solvedBoard st).clueIndices = st.clueIndices) ∧
    (∀ i, i ∉ st.clueIndices →
      ((solvePuzzle solvedBoard st).widgets i).readOnly = false ∧
      ((solvePuzzle solvedBoard st).widgets i).clue = false) := by
  refine ⟨rfl, ?_⟩
  intro i hi
  constructor <;> simp [solvePuzzle, refreshGrid, renderWidget, hi]

/-- C6 witness: solving from `st7` (empty clue set) keeps widget 0
editable. -/
theorem solvePuzzle_clue_frame_witness :
    ((solvePuzzle (fun _ => 5) st7).widgets 0).readOnly = false :=
  ((solvePuzzle_clue_frame st7 (fun _ => 5)).2 0 (by decide)).1

/-- C7: Verify picks the notification by the three-way rule: engine says
false ⇒ error-style mistake message; engine says true and every cell
non-zero ⇒ success-style solved message; engine says true but some cell
zero ⇒ success-style in-progress message. -/
theorem verifyPuzzle_message (st : AppState) (result : Bool) :
    ((verifyPuzzle result st).notice.text =
      if result then
        (if ∀ i, st.cells i ≠ 0 then "Congratulations! You solved it."
         else "Looks good so far!")
      else "Oops! There is a mistake somewhere.") ∧
    ((verifyPuzzle result st).notice.classes =
      ["visible", if result then "success" else "error"]) := by
  constructor
  · show (if result then
        (if boardFull st.cells then "Congratulations! You solved it."
         else "Looks good so far!")
      else "Oops! There is a mistake somewhere.") = _
    cases result
    · rfl
    · simp only [if_true]
      by_cases h : ∀ i, st.cells i ≠ 0
      · rw [if_pos h, if_pos ((boardFull_iff st.cells).mpr h)]
      · rw [if_neg h, if_neg (fun hb => h ((boardFull_iff st.cells).mp hb))]
  · cases result <;> rfl

/-- C8: Verify leaves the buffer, the clue set and every widget untouched;
it only rewrites the notification element and schedules the 2500ms
dismissal. -/
theorem verifyPuzzle_frame (st : AppState) (result : Bool) :
    ((verifyPuzzle result st).cells = st.cells) ∧
    ((verifyPuzzle result st).clueIndices = st.clueIndices) ∧
    ((verifyPuzzle result st).widgets = st.widgets) ∧
    ((verifyPuzzle result st).timers = st.timers ++ [2500]) :=
  ⟨rfl, rfl, rfl, rfl⟩

/-- C9: a full grid refresh is idempotent: refreshing twice with no
intervening buffer or clue-set change is the same page state — in
particular every widget's text, read-only flag and clue marker — as
refreshing once. -/
theorem refreshGrid_idempotent (st : AppState) :
    refreshGrid (refreshGrid st) = refreshGrid st := rfl

/-- C10: the handler never writes 0: every buffer cell is either unchanged
or set to a value in [1,9]; clearing a widget (raw text empty, cursor 0)
changes no buffer cell, displays the empty text, and the next refresh
re-displays the buffer value (the old digit when it was non-zero). -/
theorem updateCell_no_zero_write (st : AppState) (ev : InputEvent) :
    (∀ i, (updateCell st ev).cells i = st.cells i ∨
      (1 ≤ (updateCell st ev).cells i ∧ (updateCell st ev).cells i ≤ 9)) ∧
    ((updateCell st ⟨[], 0, ev.index⟩).cells = st.cells) ∧
    (((updateCell st ⟨[], 0, ev.index⟩).widgets ev.index).value = []) ∧
    (((refreshGrid (updateCell st ⟨[], 0, ev.index⟩)).widgets ev.index).value =
      if st.cells ev.index = 0 then [] else (Nat.repr (st.cells ev.index)).data) := by
  have hrej : isAccepted ⟨[], 0, ev.index⟩ = false := rfl
  refine ⟨?_, ?_, ?_, ?_⟩
  · intro i
    rcases updateCell_cases st ev with ⟨-, hr⟩ | ⟨v, hp, h1, h9, ha⟩
    · rw [hr]
      exact Or.inl rfl
    · rw [ha, acceptSt_cells]
      by_cases hik : i = ev.index
      · subst hik
        right
        rw [Function.update_same]
        omega
      · exact Or.inl (Function.update_noteq hik ..)
  · rw [updateCell_of_reject _ _ hrej]
    exact rejectSt_cells ..
  · rw [updateCell_of_reject _ _ hrej]
    have hv := rejectSt_widget_value st ⟨[], 0, ev.index⟩
    rw [hv]
    simp [substrJS]
  · rw [updateCell_of_reject _ _ hrej]
    rfl

end WasmSudoku
